import Mathlib

namespace Nanoleaf

/-! # Data model

Shallow embedding of the Nanoleaf LED-device driver declared in
`libsrc/leddevice/dev_net/LedDeviceNanoleaf.h`.  The provided sources contain
the class declaration (including the `SHAPETYPES` enum) but not the member
bodies; bodies are modelled from the specification where noted. -/

/-- Enumerator names of the `SHAPETYPES` enum in `LedDeviceNanoleaf.h`
(lines 165-188). -/
inductive ShapeName where
  | TRIANGLE
  | RHYTM
  | SQUARE
  | CONTROL_SQUARE_PRIMARY
  | CONTROL_SQUARE_PASSIVE
  | POWER_SUPPLY
  | HEXAGON_SHAPES
  | TRIANGE_SHAPES
  | MINI_TRIANGE_SHAPES
  | SHAPES_CONTROLLER
  | ELEMENTS_HEXAGONS
  | ELEMENTS_HEXAGONS_CORNER
  | LINES_CONECTOR
  | LIGHT_LINES
  | LIGHT_LINES_SINGLZONE
  | CONTROLLER_CAP
  | POWER_CONNECTOR
  | NL_4D_LIGHTSTRIP
  | SKYLIGHT_PANEL
  | SKYLIGHT_CONTROLLER_PRIMARY
  | SKYLIGHT_CONTROLLER_PASSIV
  | HD_LIGHT_STRIP
  deriving DecidableEq, Repr

/-- The numeric code each enumerator of `SHAPETYPES` is assigned in the source
(`LedDeviceNanoleaf.h`, lines 165-188).  Note `TRIANGLE` and `HD_LIGHT_STRIP`
are both assigned 0 there. -/
def shapeCode : ShapeName → Nat
  | .TRIANGLE => 0
  | .RHYTM => 1
  | .SQUARE => 2
  | .CONTROL_SQUARE_PRIMARY => 3
  | .CONTROL_SQUARE_PASSIVE => 4
  | .POWER_SUPPLY => 5
  | .HEXAGON_SHAPES => 7
  | .TRIANGE_SHAPES => 8
  | .MINI_TRIANGE_SHAPES => 9
  | .SHAPES_CONTROLLER => 12
  | .ELEMENTS_HEXAGONS => 14
  | .ELEMENTS_HEXAGONS_CORNER => 15
  | .LINES_CONECTOR => 16
  | .LIGHT_LINES => 17
  | .LIGHT_LINES_SINGLZONE => 18
  | .CONTROLLER_CAP => 19
  | .POWER_CONNECTOR => 20
  | .NL_4D_LIGHTSTRIP => 29
  | .SKYLIGHT_PANEL => 30
  | .SKYLIGHT_CONTROLLER_PRIMARY => 31
  | .SKYLIGHT_CONTROLLER_PASSIV => 32
  | .HD_LIGHT_STRIP => 0

/-- Modelled from the spec: the closed light-emitting lookup table over shape
variants (spec 4.3 step 3 and 9); the body of `hasLEDs` is not part of the
provided sources.  Connector, controller and power-supply variants are not
light-emitting; every other variant is. -/
def isLightEmitting : ShapeName → Bool
  | .CONTROL_SQUARE_PRIMARY => false
  | .CONTROL_SQUARE_PASSIVE => false
  | .POWER_SUPPLY => false
  | .SHAPES_CONTROLLER => false
  | .LINES_CONECTOR => false
  | .CONTROLLER_CAP => false
  | .POWER_CONNECTOR => false
  | .SKYLIGHT_CONTROLLER_PRIMARY => false
  | .SKYLIGHT_CONTROLLER_PASSIV => false
  | _ => true

/-- Modelled from the spec: `hasLEDs` (declared `LedDeviceNanoleaf.h:237`, body
not in the provided sources).  A C++ `SHAPETYPES` value is its underlying
integer, so the lookup is a function of the numeric code: it rejects exactly
the codes of the connector, controller and power-supply enumerators. -/
def hasLEDs (code : Nat) : Bool :=
  match code with
  | 3 | 4 | 5 | 12 | 16 | 19 | 20 | 31 | 32 => false
  | _ => true

/-- A panel descriptor as parsed from the device layout resource
(spec 3: `{ id, shapeType, x, y }`); `shapeType` is the wire-encoded
numeric code. -/
structure Panel where
  id : Nat
  shapeType : Nat
  x : Int
  y : Int
  deriving DecidableEq, Repr

/-- Error kinds of the driver (spec 7). -/
inductive NanoError where
  | UnsupportedVersion
  | ConfigMismatch
  | OpenFailed
  | InvalidFrame
  | WriteError
  | NotReady
  deriving DecidableEq, Repr

/-- Vertical sort key: descending when `topDown` is set (spec 4.3 step 4). -/
def vKey (td : Bool) (p : Panel) : Int := if td then -p.y else p.y

/-- Horizontal sort key: ascending when `leftRight` is set (spec 4.3 step 4). -/
def hKey (lr : Bool) (p : Panel) : Int := if lr then p.x else -p.x

/-- Modelled from the spec: the panel ordering relation used by
`initLedsConfiguration` (body not in the provided sources) — primary key the
vertical axis, secondary the horizontal axis, ties broken by panel id
ascending (spec 4.3 step 4). -/
def panelBefore (td lr : Bool) (p q : Panel) : Prop :=
  vKey td p < vKey td q ∨
    (vKey td p = vKey td q ∧
      (hKey lr p < hKey lr q ∨ (hKey lr p = hKey lr q ∧ p.id ≤ q.id)))

instance (td lr : Bool) : DecidableRel (panelBefore td lr) := fun p q =>
  decidable_of_iff
    (vKey td p < vKey td q ∨
      (vKey td p = vKey td q ∧
        (hKey lr p < hKey lr q ∨ (hKey lr p = hKey lr q ∧ p.id ≤ q.id))))
    Iff.rfl

instance (td lr : Bool) : IsTotal Panel (panelBefore td lr) :=
  ⟨fun p q => by unfold panelBefore; omega⟩

instance (td lr : Bool) : IsTrans Panel (panelBefore td lr) :=
  ⟨fun p q r hpq hqr => by unfold panelBefore at *; omega⟩

/-- Modelled from the spec: ordering step of topology resolution (spec 4.3
step 4, body of `initLedsConfiguration` not in the provided sources): when the
`topDown`/`leftRight` flags are set the filtered panels are sorted by
`panelBefore` (a stable, deterministic sort), otherwise device-reported order
is preserved. -/
def orderPanels (td lr : Bool) (ps : List Panel) : List Panel :=
  if td || lr then ps.insertionSort (panelBefore td lr) else ps

/-- Modelled from the spec: filtering step of topology resolution (spec 4.3
step 3): retain only panels whose shape code is light-emitting. -/
def filterPanels (layout : List Panel) : List Panel :=
  layout.filter (fun p => hasLEDs p.shapeType)

/-- Modelled from the spec: `getHwLedCount` (declared `LedDeviceNanoleaf.h:230`,
body not in the provided sources): the number of panels of the layout that can
be used as LEDs. -/
def getHwLedCount (layout : List Panel) : Nat :=
  (filterPanels layout).length

/-- The resolved topology (spec 3): the ordered addressable panel-id sequence
and its length `panelLedCount`. -/
structure Topology where
  panelIds : List Nat
  panelLedCount : Nat
  deriving DecidableEq, Repr

/-- The ordered addressable panel sequence used for streaming. -/
def addressableSeq (td lr : Bool) (layout : List Panel) : List Panel :=
  orderPanels td lr (filterPanels layout)

/-- Modelled from the spec: `initLedsConfiguration` (declared
`LedDeviceNanoleaf.h:202`, body not in the provided sources): filter the
layout to light-emitting panels, order them, set `panelLedCount` to the
filtered count and fail with `ConfigMismatch` if it is zero (spec 4.3
steps 3-5).  The device-identity/version fetch of step 1 is outside this
model. -/
def initLedsConfiguration (td lr : Bool) (layout : List Panel) :
    Except NanoError Topology :=
  let seq := addressableSeq td lr layout
  if seq.isEmpty then Except.error NanoError.ConfigMismatch
  else Except.ok { panelIds := seq.map Panel.id, panelLedCount := seq.length }

/-- The device's visible state as read/written over the control plane
(spec 6: `{on, hue, sat, ct, bri, colorMode, effect, isDynEffect}`). -/
structure DeviceState where
  isOn : Bool
  colorMode : String
  hue : Int
  sat : Int
  ct : Int
  bri : Int
  effect : String
  isDynEffect : Bool
  deriving DecidableEq, Repr

/-- The restorable snapshot captured before streaming (spec 3,
`DeviceStateSnapshot`); mirrors the `_original*` fields of
`LedDeviceNanoleaf.h` lines 263-270. -/
structure DeviceStateSnapshot where
  isOn : Bool
  colorMode : String
  hue : Int
  sat : Int
  ct : Int
  bri : Int
  effect : String
  isDynEffect : Bool
  deriving DecidableEq, Repr

/-- Modelled from the spec: `storeState` (declared `LedDeviceNanoleaf.h:150`,
body not in the provided sources): reads the current power/color/effect state
into a snapshot (spec 4.5). -/
def storeState (d : DeviceState) : DeviceStateSnapshot :=
  { isOn := d.isOn
    colorMode := d.colorMode
    hue := d.hue
    sat := d.sat
    ct := d.ct
    bri := d.bri
    effect := d.effect
    isDynEffect := d.isDynEffect }

/-- One control-plane write issued during restore. -/
inductive RestoreAction where
  | setColorMode (m : String)
  | setHue (v : Int)
  | setSat (v : Int)
  | setCt (v : Int)
  | setBri (v : Int)
  | setEffect (e : String)
  | setDynEffect (b : Bool)
  | setPower (b : Bool)
  deriving DecidableEq, Repr

/-- Whether a restore action writes the power state. -/
def RestoreAction.isPower : RestoreAction → Bool
  | .setPower _ => true
  | _ => false

/-- Modelled from the spec: the sequence of control-plane writes issued by
`restoreState` (declared `LedDeviceNanoleaf.h:160`, body not in the provided
sources): the non-power attributes are replayed first and the original power
state is applied last (spec 4.5). -/
def restoreActions (s : DeviceStateSnapshot) : List RestoreAction :=
  [RestoreAction.setColorMode s.colorMode,
   RestoreAction.setHue s.hue,
   RestoreAction.setSat s.sat,
   RestoreAction.setCt s.ct,
   RestoreAction.setBri s.bri,
   RestoreAction.setEffect s.effect,
   RestoreAction.setDynEffect s.isDynEffect,
   RestoreAction.setPower s.isOn]

/-- Effect of one restore action on the device state. -/
def applyAction (d : DeviceState) : RestoreAction → DeviceState
  | .setColorMode m => { d with colorMode := m }
  | .setHue v => { d with hue := v }
  | .setSat v => { d with sat := v }
  | .setCt v => { d with ct := v }
  | .setBri v => { d with bri := v }
  | .setEffect e => { d with effect := e }
  | .setDynEffect b => { d with isDynEffect := b }
  | .setPower b => { d with isOn := b }

/-- Modelled from the spec: `restoreState` (spec 4.5) as the device-state
effect of replaying `restoreActions`. -/
def restoreState (s : DeviceStateSnapshot) (d : DeviceState) : DeviceState :=
  (restoreActions s).foldl applyAction d

/-- The relevant part of the `POST /effects` response (spec 6:
`{streamControlPort, extControlVersion}`). -/
structure ExtControlResponse where
  streamControlPort : Nat
  extControlVersion : Nat
  deriving DecidableEq, Repr

/-- The streaming endpoint extracted by the mode switch (spec 3:
port and protocol version). -/
structure StreamEndpoint where
  port : Nat
  protocolVersion : Nat
  deriving DecidableEq, Repr

/-- Modelled from the spec: `changeToExternalControlMode` (declared
`LedDeviceNanoleaf.h:208-215`, body not in the provided sources): parses the
device response for the assigned streaming port and protocol version; no
retry — a missing/unusable response is `OpenFailed` (spec 4.4). -/
def changeToExternalControlMode (resp : Option ExtControlResponse) :
    Except NanoError StreamEndpoint :=
  match resp with
  | none => Except.error NanoError.OpenFailed
  | some r => Except.ok (StreamEndpoint.mk r.streamControlPort r.extControlVersion)

/-- A fully opened streaming session: writes are only possible through a
value of this type (spec 2/5: strict open sequencing). -/
structure Session where
  topology : Topology
  endpoint : StreamEndpoint
  deriving DecidableEq, Repr

/-- Modelled from the spec: the open sequence (spec 2, 5, 9): topology
resolution, then the mode switch; any failure aborts the sequence and no
session — hence no write capability — is produced. -/
def openSession (td lr : Bool) (layout : List Panel)
    (resp : Option ExtControlResponse) : Except NanoError Session :=
  match initLedsConfiguration td lr layout with
  | Except.error e => Except.error e
  | Except.ok topo =>
    match changeToExternalControlMode resp with
    | Except.error e => Except.error e
    | Except.ok ep => Except.ok (Session.mk topo ep)

/-- An RGB color value, one byte per channel (the driver's `ColorRgb`). -/
structure ColorRgb where
  red : Nat
  green : Nat
  blue : Nat
  deriving DecidableEq, Repr

/-- A 16-bit big-endian quantity as two bytes. -/
def nat16 (v : Nat) : List Nat := [v / 256 % 256, v % 256]

/-- Modelled from the spec: the fixed transition duration carried in each
panel chunk of the streaming datagram (spec 6). -/
def transitionTime : Nat := 1

/-- Modelled from the spec: the per-panel chunk of the streaming datagram
(spec 6): `panelId(2) || R(1) || G(1) || B(1) || reservedOrWhite(1) ||
transitionDuration(2)`; the reserved/white byte is zero. -/
def panelChunk (pc : Nat × ColorRgb) : List Nat :=
  nat16 pc.1 ++ [pc.2.red, pc.2.green, pc.2.blue, 0] ++ nat16 transitionTime

/-- The datagram body: one chunk per (panel id, color) pair, in resolved
topology order. -/
def encodeBody : List (Nat × ColorRgb) → List Nat
  | [] => []
  | pc :: rest => panelChunk pc ++ encodeBody rest

/-- Modelled from the spec: the streaming datagram (spec 6):
`panelCount(2 bytes)` followed by one chunk per panel; field sizes are those
of external-control protocol version 2, the version whose layout the spec
fixes. -/
def encodeFrame (panelIds : List Nat) (colors : List ColorRgb) : List Nat :=
  nat16 panelIds.length ++ encodeBody (panelIds.zip colors)

/-- The streaming-relevant driver fields consulted by `write`
(`_panelLedCount`, `_panelIds`, `_extControlVersion` of
`LedDeviceNanoleaf.h` lines 250-256). -/
structure WriteState where
  panelLedCount : Nat
  panelIds : List Nat
  extControlVersion : Nat
  deriving DecidableEq, Repr

/-- Modelled from the spec: `write` (declared `LedDeviceNanoleaf.h:127`, body
not in the provided sources): requires the color count to equal
`panelLedCount`; any mismatch fails immediately with `InvalidFrame` and sends
nothing; otherwise the single encoded datagram is sent (spec 4.6). -/
def write (st : WriteState) (ledValues : List ColorRgb) :
    Except NanoError (List Nat) :=
  if ledValues.length ≠ st.panelLedCount then Except.error NanoError.InvalidFrame
  else Except.ok (encodeFrame st.panelIds ledValues)

/-- The datagrams actually sent by one `write` call: one on success, none on
failure (spec 4.6: exactly one outbound datagram per successful write). -/
def datagramsSent (st : WriteState) (ledValues : List ColorRgb) :
    List (List Nat) :=
  match write st ledValues with
  | Except.error _ => []
  | Except.ok d => [d]

/-- The full mutable driver state of `LedDeviceNanoleaf` (configuration
fields, resolved topology, stored original state; header lines 240-270). -/
structure DriverState where
  topDown : Bool
  leftRight : Bool
  deviceModel : String
  deviceFirmwareVersion : String
  extControlVersion : Nat
  panelLedCount : Nat
  panelIds : List Nat
  isBrightnessOverwrite : Bool
  brightness : Int
  originalState : DeviceStateSnapshot
  deriving DecidableEq, Repr

/-- The call `getHwLedCount(jsonLayout)` as a state-passing member call; the
member is declared `const` (`LedDeviceNanoleaf.h:230`), so the object state
passes through unchanged. -/
def getHwLedCountCall (st : DriverState) (layout : List Panel) :
    Nat × DriverState :=
  (getHwLedCount layout, st)

/-- The call `hasLEDs(panelshapeType)` as a state-passing member call; the
member is declared `const` (`LedDeviceNanoleaf.h:237`), so the object state
passes through unchanged. -/
def hasLEDsCall (st : DriverState) (code : Nat) : Bool × DriverState :=
  (hasLEDs code, st)

/-! # Helper lemmas -/

theorem hasLEDs_shapeCode (n : ShapeName) :
    hasLEDs (shapeCode n) = isLightEmitting n := by
  cases n <;> rfl

theorem orderPanels_perm (td lr : Bool) (ps : List Panel) :
    (orderPanels td lr ps).Perm ps := by
  unfold orderPanels
  split
  · exact List.perm_insertionSort _ _
  · exact List.Perm.refl _

theorem mem_addressableSeq {td lr : Bool} {layout : List Panel} {p : Panel}
    (h : p ∈ addressableSeq td lr layout) : hasLEDs p.shapeType = true := by
  have hp : p ∈ filterPanels layout := (orderPanels_perm td lr _).mem_iff.mp h
  exact (List.mem_filter.mp hp).2

theorem addressableSeq_length (td lr : Bool) (layout : List Panel) :
    (addressableSeq td lr layout).length = getHwLedCount layout :=
  (orderPanels_perm td lr _).length_eq

theorem encodeBody_length (l : List (Nat × ColorRgb)) :
    (encodeBody l).length = 8 * l.length := by
  induction l with
  | nil => rfl
  | cons pc rest ih =>
    simp [encodeBody, panelChunk, nat16, ih]
    omega

theorem encodeBody_chunk (l : List (Nat × ColorRgb)) (i : Nat)
    (h : i < l.length) :
    ∃ pc, l[i]? = some pc ∧
      ((encodeBody l).drop (8 * i)).take 8 = panelChunk pc := by
  induction l generalizing i with
  | nil => simp at h
  | cons hd rest ih =>
    cases i with
    | zero =>
      refine ⟨hd, by simp, ?_⟩
      have hlen : (panelChunk hd).length = 8 := by
        simp [panelChunk, nat16]
      rw [Nat.mul_zero, List.drop_zero, encodeBody, ← hlen,
        List.take_left]
    | succ i =>
      have hi : i < rest.length := by simpa using h
      obtain ⟨pc, hpc, hchunk⟩ := ih i hi
      refine ⟨pc, by simpa using hpc, ?_⟩
      have hlen : (panelChunk hd).length = 8 := by
        simp [panelChunk, nat16]
      have hdrop : (encodeBody (hd :: rest)).drop (8 * (i + 1)) =
          (encodeBody rest).drop (8 * i) := by
        rw [encodeBody]
        rw [show 8 * (i + 1) = (panelChunk hd).length + 8 * i by omega]
        rw [List.drop_append]
      rw [hdrop, hchunk]

theorem zip_index {α β : Type} (xs : List α) (ys : List β) (i : Nat)
    (hx : i < xs.length) (hy : i < ys.length) :
    ∃ x y, xs[i]? = some x ∧ ys[i]? = some y ∧ (xs.zip ys)[i]? = some (x, y) := by
  induction xs generalizing ys i with
  | nil => simp at hx
  | cons x xs ih =>
    cases ys with
    | nil => simp at hy
    | cons y ys =>
      cases i with
      | zero => exact ⟨x, y, by simp, by simp, by simp⟩
      | succ i =>
        obtain ⟨a, b, ha, hb, hab⟩ :=
          ih ys i (by simpa using hx) (by simpa using hy)
        exact ⟨a, b, by simpa using ha, by simpa using hb, by simpa using hab⟩

/-! # Claim theorems -/

/-- C1: topology resolution retains only light-emitting panels — a panel whose
shape is a connector, controller, or power-supply variant never appears in the
addressable sequence, `panelLedCount` equals the sequence length, and removing
all panels of such a shape from the layout leaves the count unchanged. -/
theorem nonemitting_panels_excluded (layout : List Panel) (td lr : Bool)
    (n : ShapeName) (h : isLightEmitting n = false) :
    (∀ p ∈ addressableSeq td lr layout, p.shapeType ≠ shapeCode n) ∧
    getHwLedCount layout = (addressableSeq td lr layout).length ∧
    getHwLedCount (layout.filter (fun p => p.shapeType ≠ shapeCode n)) =
      getHwLedCount layout := by
  refine ⟨?_, (addressableSeq_length td lr layout).symm, ?_⟩
  · intro p hp hcode
    have hl := mem_addressableSeq hp
    rw [hcode, hasLEDs_shapeCode, h] at hl
    exact Bool.false_ne_true hl
  · unfold getHwLedCount filterPanels
    rw [List.filter_filter]
    congr 1
    apply List.filter_congr
    intro p _
    by_cases hc : p.shapeType = shapeCode n
    · simp [hc, hasLEDs_shapeCode, h]
    · simp [hc]

theorem nonemitting_panels_excluded_witness :
    isLightEmitting ShapeName.POWER_SUPPLY = false ∧
    getHwLedCount [Panel.mk 1 0 0 0, Panel.mk 2 5 1 1] =
      (addressableSeq true true [Panel.mk 1 0 0 0, Panel.mk 2 5 1 1]).length ∧
    getHwLedCount
        (([Panel.mk 1 0 0 0, Panel.mk 2 5 1 1]).filter
          (fun p => p.shapeType ≠ shapeCode ShapeName.POWER_SUPPLY)) =
      getHwLedCount [Panel.mk 1 0 0 0, Panel.mk 2 5 1 1] :=
  ⟨by decide,
    (nonemitting_panels_excluded [Panel.mk 1 0 0 0, Panel.mk 2 5 1 1] true true
      ShapeName.POWER_SUPPLY (by decide)).2.1,
    (nonemitting_panels_excluded [Panel.mk 1 0 0 0, Panel.mk 2 5 1 1] true true
      ShapeName.POWER_SUPPLY (by decide)).2.2⟩

/-- C2: `write` fails deterministically with `InvalidFrame` and sends no
datagram whenever the color count differs from `panelLedCount`; for a
correctly sized sequence the failure branch is not taken and the encoded
datagram is the result. -/
theorem write_length_guard (st : WriteState) (colors : List ColorRgb) :
    (colors.length ≠ st.panelLedCount →
      write st colors = Except.error NanoError.InvalidFrame ∧
      datagramsSent st colors = []) ∧
    (colors.length = st.panelLedCount →
      write st colors = Except.ok (encodeFrame st.panelIds colors) ∧
      datagramsSent st colors = [encodeFrame st.panelIds colors]) := by
  constructor
  · intro h
    have hw : write st colors = Except.error NanoError.InvalidFrame := by
      unfold write
      rw [if_pos h]
    exact ⟨hw, by unfold datagramsSent; rw [hw]⟩
  · intro h
    have hw : write st colors = Except.ok (encodeFrame st.panelIds colors) := by
      unfold write
      rw [if_neg (by simp [h])]
    exact ⟨hw, by unfold datagramsSent; rw [hw]⟩

theorem write_length_guard_witness :
    (write (WriteState.mk 1 [7] 2) [] = Except.error NanoError.InvalidFrame ∧
      datagramsSent (WriteState.mk 1 [7] 2) [] = []) ∧
    (write (WriteState.mk 1 [7] 2) [ColorRgb.mk 10 20 30] =
        Except.ok (encodeFrame [7] [ColorRgb.mk 10 20 30]) ∧
      datagramsSent (WriteState.mk 1 [7] 2) [ColorRgb.mk 10 20 30] =
        [encodeFrame [7] [ColorRgb.mk 10 20 30]]) :=
  ⟨(write_length_guard (WriteState.mk 1 [7] 2) []).1 (by decide),
    (write_length_guard (WriteState.mk 1 [7] 2) [ColorRgb.mk 10 20 30]).2 rfl⟩

/-- C3 counterexample: `TRIANGLE` and `HD_LIGHT_STRIP` carry the same numeric
code 0 in the source enum, so the light-emitting lookup — which receives the
numeric `SHAPETYPES` value — returns the same answer for both; it cannot
distinguish them. -/
theorem triangle_lightstrip_code_collision :
    shapeCode ShapeName.TRIANGLE = shapeCode ShapeName.HD_LIGHT_STRIP ∧
    hasLEDs (shapeCode ShapeName.TRIANGLE) =
      hasLEDs (shapeCode ShapeName.HD_LIGHT_STRIP) := by
  exact ⟨rfl, rfl⟩

/-- C3 (amended): the classification declares `TRIANGLE` and `HD_LIGHT_STRIP`
as two distinct named enumerators, but both carry the numeric code 0, and any
lookup that — like `hasLEDs` — is a function of the numeric code necessarily
yields the same result for both, so the lookup cannot distinguish them by
variant name. -/
theorem triangle_lightstrip_indistinguishable :
    ShapeName.TRIANGLE ≠ ShapeName.HD_LIGHT_STRIP ∧
    shapeCode ShapeName.TRIANGLE = 0 ∧
    shapeCode ShapeName.HD_LIGHT_STRIP = 0 ∧
    ∀ f : Nat → Bool,
      f (shapeCode ShapeName.TRIANGLE) = f (shapeCode ShapeName.HD_LIGHT_STRIP) :=
  ⟨by decide, rfl, rfl, fun f => rfl⟩

/-- C4: with `topDown` and `leftRight` set, the resolved order is a
permutation of the input sorted by vertical position descending, then
horizontal position ascending, ties broken by panel id ascending; for the
panels `[{id 1, x 0, y 0}, {id 2, x 10, y 0}, {id 3, x 0, y 10}]` the
resolved order is `[id 3, id 1, id 2]`; with both flags unset the
device-reported order is preserved. -/
theorem ordering_topDown_leftRight :
    (∀ ps : List Panel,
        (orderPanels true true ps).Perm ps ∧
        (orderPanels true true ps).Pairwise (fun p q =>
          q.y < p.y ∨ (p.y = q.y ∧ (p.x < q.x ∨ (p.x = q.x ∧ p.id ≤ q.id))))) ∧
    (∀ ps : List Panel, orderPanels false false ps = ps) ∧
    orderPanels true true
        [Panel.mk 1 0 0 0, Panel.mk 2 0 10 0, Panel.mk 3 0 0 10] =
      [Panel.mk 3 0 0 10, Panel.mk 1 0 0 0, Panel.mk 2 0 10 0] := by
  refine ⟨fun ps => ⟨orderPanels_perm true true ps, ?_⟩, fun ps => rfl, by decide⟩
  have hs := List.sorted_insertionSort (panelBefore true true) ps
  have he : orderPanels true true ps = ps.insertionSort (panelBefore true true) := rfl
  rw [he]
  refine hs.imp ?_
  intro p q hpq
  unfold panelBefore vKey hKey at hpq
  simp only [if_true, Bool.ite_eq_true_distrib] at hpq
  omega

/-- C5: round-trip law — `storeState` followed immediately by `restoreState`
with no intervening device mutation reproduces the original state, and
reading the state back after any restore of that snapshot reproduces the
snapshot field-for-field. -/
theorem store_restore_roundtrip (d : DeviceState) :
    restoreState (storeState d) d = d ∧
    ∀ d' : DeviceState, storeState (restoreState (storeState d) d') = storeState d := by
  constructor
  · cases d
    rfl
  · intro d'
    cases d
    cases d'
    rfl

/-- C6: a layout with zero light-emitting panels makes
`initLedsConfiguration` fail with `ConfigMismatch`; on success
`panelLedCount` equals the filtered count and is strictly positive, so it is
never silently zero. -/
theorem zero_emitting_config_mismatch :
    (∀ (td lr : Bool) (layout : List Panel), getHwLedCount layout = 0 →
        initLedsConfiguration td lr layout =
          Except.error NanoError.ConfigMismatch) ∧
    (∀ (td lr : Bool) (layout : List Panel) (t : Topology),
        initLedsConfiguration td lr layout = Except.ok t →
        t.panelLedCount = getHwLedCount layout ∧ 0 < t.panelLedCount) := by
  constructor
  · intro td lr layout h
    have hlen : (addressableSeq td lr layout).length = 0 := by
      rw [addressableSeq_length]; exact h
    unfold initLedsConfiguration
    simp [List.isEmpty_iff, List.length_eq_zero.mp hlen]
  · intro td lr layout t ht
    unfold initLedsConfiguration at ht
    by_cases he : (addressableSeq td lr layout).isEmpty
    · simp [he] at ht
    · simp [he] at ht
      have hne : (addressableSeq td lr layout) ≠ [] := by
        intro hnil
        exact he (by simp [hnil])
      constructor
      · rw [← ht]
        exact addressableSeq_length td lr layout
      · rw [← ht]
        simpa [Nat.pos_iff_ne_zero] using fun h0 => hne (List.length_eq_zero.mp h0)

theorem zero_emitting_config_mismatch_witness :
    initLedsConfiguration true true [Panel.mk 1 5 0 0] =
      Except.error NanoError.ConfigMismatch ∧
    (Topology.mk [1] 1).panelLedCount = getHwLedCount [Panel.mk 1 0 0 0] ∧
    0 < (Topology.mk [1] 1).panelLedCount :=
  ⟨zero_emitting_config_mismatch.1 true true [Panel.mk 1 5 0 0] (by decide),
    zero_emitting_config_mismatch.2 true true [Panel.mk 1 0 0 0]
      (Topology.mk [1] 1) rfl⟩

/-- C7: given the response `{streamControlPort: 60221, extControlVersion: 2}`,
the mode switch yields a `StreamEndpoint` with exactly that port and version;
and every successfully opened session — the only capability through which
frames are written — carries an endpoint produced by a successful mode
switch, so no write occurs before the call succeeds. -/
theorem ext_control_mode_endpoint :
    changeToExternalControlMode (some (ExtControlResponse.mk 60221 2)) =
      Except.ok (StreamEndpoint.mk 60221 2) ∧
    ∀ (td lr : Bool) (layout : List Panel) (resp : Option ExtControlResponse)
      (s : Session), openSession td lr layout resp = Except.ok s →
        changeToExternalControlMode resp = Except.ok s.endpoint := by
  refine ⟨rfl, ?_⟩
  intro td lr layout resp s h
  unfold openSession at h
  cases hinit : initLedsConfiguration td lr layout with
  | error e => rw [hinit] at h; exact absurd h (by simp)
  | ok topo =>
    rw [hinit] at h
    cases hmode : changeToExternalControlMode resp with
    | error e => rw [hmode] at h; exact absurd h (by simp)
    | ok ep =>
      rw [hmode] at h
      have hse : s = Session.mk topo ep := by
        cases h; rfl
      rw [hse]

theorem ext_control_mode_endpoint_witness :
    changeToExternalControlMode (some (ExtControlResponse.mk 60221 2)) =
      Except.ok
        (Session.mk (Topology.mk [1] 1) (StreamEndpoint.mk 60221 2)).endpoint :=
  ext_control_mode_endpoint.2 true true [Panel.mk 1 0 0 0]
    (some (ExtControlResponse.mk 60221 2))
    (Session.mk (Topology.mk [1] 1) (StreamEndpoint.mk 60221 2)) rfl

/-- C8: during restore, every action before the last writes a non-power
attribute — in order: color mode, hue, saturation, color temperature,
brightness, effect, dynamic-effect flag — and the final action, the only
power write, applies the original power state. -/
theorem restore_power_last (s : DeviceStateSnapshot) :
    (restoreActions s).dropLast =
      [RestoreAction.setColorMode s.colorMode,
       RestoreAction.setHue s.hue,
       RestoreAction.setSat s.sat,
       RestoreAction.setCt s.ct,
       RestoreAction.setBri s.bri,
       RestoreAction.setEffect s.effect,
       RestoreAction.setDynEffect s.isDynEffect] ∧
    ((restoreActions s).dropLast.all fun a => ! a.isPower) = true ∧
    (restoreActions s).getLast? = some (RestoreAction.setPower s.isOn) ∧
    restoreState s = fun d => (restoreActions s).foldl applyAction d := by
  refine ⟨rfl, rfl, rfl, rfl⟩

/-- C9: a successful `write` sends a byte-exact datagram — a 2-byte
big-endian panel-count header followed, per panel in resolved topology
order, by the 2-byte panel id, the R, G and B bytes, the zero reserved
byte and the 2-byte transition duration. -/
theorem write_datagram_bytes (st : WriteState) (colors : List ColorRgb)
    (bytes : List Nat) (hids : st.panelIds.length = st.panelLedCount)
    (hw : write st colors = Except.ok bytes) :
    bytes.length = 2 + 8 * st.panelLedCount ∧
    bytes.take 2 = [st.panelLedCount / 256 % 256, st.panelLedCount % 256] ∧
    ∀ i, i < st.panelLedCount →
      ∃ pid c, st.panelIds[i]? = some pid ∧ colors[i]? = some c ∧
        (bytes.drop (2 + 8 * i)).take 8 =
          [pid / 256 % 256, pid % 256, c.red, c.green, c.blue, 0, 0, 1] := by
  have hlen : colors.length = st.panelLedCount := by
    by_contra hne
    unfold write at hw
    rw [if_pos hne] at hw
    exact absurd hw (by simp)
  have hb : bytes = encodeFrame st.panelIds colors := by
    unfold write at hw
    rw [if_neg (by simp [hlen])] at hw
    exact (Except.ok.inj hw).symm
  subst hb
  have hzip : (st.panelIds.zip colors).length = st.panelLedCount := by
    rw [List.length_zip, hids, hlen, Nat.min_self]
  refine ⟨?_, ?_, ?_⟩
  · unfold encodeFrame
    rw [List.length_append, encodeBody_length, hzip]
    simp [nat16]
  · unfold encodeFrame
    rw [List.take_append_of_le_length (by simp [nat16])]
    simp [nat16, hids]
  · intro i hi
    obtain ⟨pid, c, hpid, hc, hpair⟩ :=
      zip_index st.panelIds colors i (by omega) (by omega)
    refine ⟨pid, c, hpid, hc, ?_⟩
    obtain ⟨pc, hpc, hchunk⟩ := encodeBody_chunk (st.panelIds.zip colors) i
      (by omega)
    have hpceq : pc = (pid, c) := by
      rw [hpair] at hpc
      exact (Option.some.inj hpc).symm
    subst hpceq
    have hdrop : (encodeFrame st.panelIds colors).drop (2 + 8 * i) =
        (encodeBody (st.panelIds.zip colors)).drop (8 * i) := by
      unfold encodeFrame
      rw [show 2 + 8 * i = (nat16 st.panelIds.length).length + 8 * i by
        simp [nat16]]
      rw [List.drop_append]
    rw [hdrop, hchunk]
    rfl

theorem write_datagram_bytes_witness :
    (encodeFrame [300] [ColorRgb.mk 255 1 2]).length = 2 + 8 * 1 ∧
    (encodeFrame [300] [ColorRgb.mk 255 1 2]).take 2 = [1 / 256 % 256, 1 % 256] :=
  ⟨(write_datagram_bytes (WriteState.mk 1 [300] 2) [ColorRgb.mk 255 1 2]
      (encodeFrame [300] [ColorRgb.mk 255 1 2]) rfl rfl).1,
    (write_datagram_bytes (WriteState.mk 1 [300] 2) [ColorRgb.mk 255 1 2]
      (encodeFrame [300] [ColorRgb.mk 255 1 2]) rfl rfl).2.1⟩

/-- C10: the `const` member calls `getHwLedCount` and `hasLEDs` are
read-only: the driver state after the call — panel count, panel id sequence,
stored original state and configuration fields — is identical to the state
before it. -/
theorem const_members_leave_state_unchanged (st : DriverState)
    (layout : List Panel) (code : Nat) :
    (getHwLedCountCall st layout).2 = st ∧
    (hasLEDsCall st code).2 = st ∧
    (getHwLedCountCall st layout).2.panelLedCount = st.panelLedCount ∧
    (getHwLedCountCall st layout).2.panelIds = st.panelIds ∧
    (hasLEDsCall st code).2.originalState = st.originalState ∧
    (hasLEDsCall st code).2.topDown = st.topDown ∧
    (hasLEDsCall st code).2.leftRight = st.leftRight ∧
    (getHwLedCountCall st layout).1 = getHwLedCount layout ∧
    (hasLEDsCall st code).1 = hasLEDs code := by
  exact ⟨rfl, rfl, rfl, rfl, rfl, rfl, rfl, rfl, rfl⟩

end Nanoleaf
